import Mathlib

/-!
Verification of the AI response broker of the SarkarBrothers toy-shop
storefront: the multi-provider fallback chain and the local heuristic
responder of the AI service module.

The TypeScript source is embedded shallowly: module-level imports become
explicit parameters (the product catalog list, the provider environment),
`async` remote calls become oracle functions recorded in a `ProviderEnv`
structure, thrown exceptions become `Except`/`Option` values, and the
JavaScript regular expressions used by the local chat fallback are
hand-translated into decidable matchers with JS semantics (leftmost match,
ASCII `\w` word boundaries, `\s` whitespace class).

Numeric conventions: prices, review counts and stock are the integers the
source uses; product ratings (decimal literals such as 4.5 in the source
data) are carried in tenths of a star, which is exact for the one-decimal
literals the catalog uses and order-isomorphic for the comparators.
-/

namespace SarkarBrothers

/-! ## JS string primitives -/

/-- The JS `\s` class (the whitespace characters recognised by JS regexes),
restricted to the code points that can occur here: ASCII whitespace plus the
common Unicode space characters. -/
def isJsSpace (c : Char) : Bool :=
  c == ' ' || c == '\t' || c == '\n' || c == '\r' ||
  c == '\x0b' || c == '\x0c' ||
  c == ' ' || c.toNat == 0x1680 ||
  (0x2000 ≤ c.toNat && c.toNat ≤ 0x200a) ||
  c.toNat == 0x2028 || c.toNat == 0x2029 || c.toNat == 0x202f ||
  c.toNat == 0x205f || c.toNat == 0x3000 || c.toNat == 0xfeff

/-- The JS `\w` class: ASCII letters, digits and underscore. -/
def isWordChar (c : Char) : Bool :=
  (65 ≤ c.toNat && c.toNat ≤ 90) || (97 ≤ c.toNat && c.toNat ≤ 122) ||
  (48 ≤ c.toNat && c.toNat ≤ 57) || c == '_'

/-- `String.prototype.toLowerCase`, on the ASCII letters that matter here. -/
def jsToLower (s : String) : String :=
  ⟨s.data.map Char.toLower⟩

/-- `String.prototype.trim`: strip JS whitespace from both ends. -/
def jsTrim (s : String) : String :=
  ⟨(s.data.dropWhile isJsSpace).reverse.dropWhile isJsSpace |>.reverse⟩

/-- Decimal value of a digit run (the effect of `parseInt` on it). -/
def parseDigits (ds : List Char) : Nat :=
  ds.foldl (fun acc c => 10 * acc + (c.toNat - '0'.toNat)) 0

/-- `String.prototype.includes sub` on char lists. -/
def hasSubstr (sub : List Char) : List Char → Bool
  | [] => sub.isEmpty
  | c :: rest => sub.isPrefixOf (c :: rest) || hasSubstr sub (rest : List Char)

/-- Whether `s[i]` exists and is a JS word character. -/
def wordAt (s : List Char) (i : Nat) : Bool :=
  match s.get? i with
  | some c => isWordChar c
  | none => false

/-- JS `\b` at index `i` of `s`: the word-character status changes between
`s[i-1]` and `s[i]` (out of range counts as non-word). -/
def wb (s : List Char) (i : Nat) : Bool :=
  wordAt s i != (if i = 0 then false else wordAt s (i - 1))

/-- Match the literal `w` at index `i`; on success return the end index. -/
def litAt (s : List Char) (i : Nat) (w : List Char) : Option Nat :=
  if w.isPrefixOf (s.drop i) then some (i + w.length) else none

/-- First index `≥ i` whose character is not JS whitespace (or the length). -/
def skipWsFrom (s : List Char) (i : Nat) : Nat :=
  i + ((s.drop i).takeWhile isJsSpace).length

/-- Match a digit character `d`, then `\s*`, then the literal `w`
(the shape of the `1\s*year` alternatives); return the end index. -/
def digitWsLitAt (s : List Char) (i : Nat) (d : Char) (w : List Char) : Option Nat :=
  match s.get? i with
  | some c =>
    if c == d then litAt s (skipWsFrom s (i + 1)) w else none
  | none => none

/-- Match the literal `w₁`, then `\s*`, then the literal `w₂`
(the shape of the `school\s*age` alternative); return the end index. -/
def litWsLitAt (s : List Char) (i : Nat) (w₁ w₂ : List Char) : Option Nat :=
  match litAt s i w₁ with
  | some j => litAt s (skipWsFrom s j) w₂
  | none => none

/-- Boolean match of an alternation wrapped in `\b(…)\b` (every alternative
here begins and ends with a word character): some alternative matches at some
index with a word boundary on both sides. `alts` gives, per start index, the
end indices of the alternatives that literally match there. -/
def wbMatch (alts : List Char → Nat → List (Option Nat)) (s : List Char) : Bool :=
  (List.range (s.length + 1)).any fun i =>
    wb s i && (alts s i).any fun j? =>
      match j? with
      | some j => wb s j
      | none => false

/-- Positions `i ≤ k < j` of `s` all hold characters other than a newline
(JS `.` does not match `\n`). -/
def noNewlineBetween (s : List Char) (i j : Nat) : Bool :=
  ((s.drop i).take (j - i)).all fun c => c != '\n'

/-! ## The regular expressions of `localChatFallback` -/

/-- One price alternative `kw\s*₹?\s*(\d+)` at index `i`: the keyword, optional
whitespace, an optional rupee sign, optional whitespace, then at least one
digit; the captured digits are returned as a number. -/
def priceAltAt (s : List Char) (i : Nat) (kw : List Char) : Option Nat :=
  if kw.isPrefixOf (s.drop i) then
    let j := skipWsFrom s (i + kw.length)
    let j := if s.get? j == some '₹' then j + 1 else j
    let j := skipWsFrom s j
    let ds := (s.drop j).takeWhile Char.isDigit
    if ds.isEmpty then none else some (parseDigits ds)
  else none

/-- The regex `under\s*₹?\s*(\d+)|below\s*₹?\s*(\d+)|budget\s*₹?\s*(\d+)|within\s*₹?\s*(\d+)`
with JS `match` semantics: leftmost start index wins, alternatives tried in
order at each index; the result is the number `parseInt` extracts from the
matched capture group. -/
def priceMatchNum (s : List Char) : Option Nat :=
  (List.range (s.length + 1)).findSome? fun i =>
    (priceAltAt s i "under".data).orElse fun _ =>
    (priceAltAt s i "below".data).orElse fun _ =>
    (priceAltAt s i "budget".data).orElse fun _ =>
    priceAltAt s i "within".data

/-- The regex `\b(baby|infant|toddler|1\s*year|2\s*year|0-2)\b`. -/
def ageBabyRe (s : List Char) : Bool :=
  wbMatch (fun s i =>
    [litAt s i "baby".data, litAt s i "infant".data, litAt s i "toddler".data,
     digitWsLitAt s i '1' "year".data, digitWsLitAt s i '2' "year".data,
     litAt s i "0-2".data]) s

/-- The group `\b(3|4|5|6|preschool|kindergarten)\b` as index pairs. -/
def ageDigitAlts (s : List Char) (i : Nat) : List (Option Nat) :=
  [litAt s i "3".data, litAt s i "4".data, litAt s i "5".data, litAt s i "6".data,
   litAt s i "preschool".data, litAt s i "kindergarten".data]

/-- The group `\b(year|বছর)\b` as index pairs. The Bengali letters are not JS
word characters, so the boundary checks around `বছর` behave accordingly. -/
def yearAlts (s : List Char) (i : Nat) : List (Option Nat) :=
  [litAt s i "year".data, litAt s i "বছর".data]

/-- `\b` holds at both ends of the span `i..j` for the given alternative
(computed from the actual characters, valid for word and non-word
alternatives alike). -/
def spanWb (s : List Char) (i : Nat) (j? : Option Nat) : Option Nat :=
  match j? with
  | some j => if wb s i && wb s j then some j else none
  | none => none

/-- Boolean match of `\bA\b.*\bB\b`: an `A` span, then a newline-free gap,
then a `B` span. -/
def seqMatch (altsA altsB : List Char → Nat → List (Option Nat)) (s : List Char) : Bool :=
  (List.range (s.length + 1)).any fun i =>
    ((altsA s i).map (spanWb s i)).any fun j? =>
      match j? with
      | some j =>
        (List.range (s.length + 1)).any fun k =>
          j ≤ k && noNewlineBetween s j k &&
          ((altsB s k).map (spanWb s k)).any fun l? => l?.isSome
      | none => false

/-- The regex `\b(3|4|5|6|preschool|kindergarten)\b.*\b(year|বছর)\b`. -/
def agePreschoolRe (s : List Char) : Bool :=
  seqMatch ageDigitAlts yearAlts s

/-- The regex `\b(year|বছর)\b.*\b(3|4|5|6)\b`. -/
def ageYearFirstRe (s : List Char) : Bool :=
  seqMatch yearAlts (fun s i =>
    [litAt s i "3".data, litAt s i "4".data, litAt s i "5".data,
     litAt s i "6".data]) s

/-- The regex `\b(7|8|9|10|11|12|kid|older|school\s*age)\b`. -/
def ageOlderRe (s : List Char) : Bool :=
  wbMatch (fun s i =>
    [litAt s i "7".data, litAt s i "8".data, litAt s i "9".data,
     litAt s i "10".data, litAt s i "11".data, litAt s i "12".data,
     litAt s i "kid".data, litAt s i "older".data,
     litWsLitAt s i "school".data "age".data]) s

/-- The regex `\b(hi|hello|hey|howdy)\b`. -/
def greetingEnRe (s : List Char) : Bool :=
  wbMatch (fun s i =>
    [litAt s i "hi".data, litAt s i "hello".data, litAt s i "hey".data,
     litAt s i "howdy".data]) s

/-- The regex `(নমস্কার|হ্যালো|হাই)`: a plain substring alternation. -/
def greetingBnRe (s : List Char) : Bool :=
  hasSubstr "নমস্কার".data s || hasSubstr "হ্যালো".data s || hasSubstr "হাই".data s

/-- The regex `\b(thank|bye|goodbye)\b`. -/
def thanksEnRe (s : List Char) : Bool :=
  wbMatch (fun s i =>
    [litAt s i "thank".data, litAt s i "bye".data, litAt s i "goodbye".data]) s

/-- The regex `(ধন্যবাদ|বিদায়)`: a plain substring alternation. -/
def thanksBnRe (s : List Char) : Bool :=
  hasSubstr "ধন্যবাদ".data s || hasSubstr "বিদায়".data s

/-- The regex `\b(best|popular|top|recommend|bestseller|trending)\b`. -/
def bestRe (s : List Char) : Bool :=
  wbMatch (fun s i =>
    [litAt s i "best".data, litAt s i "popular".data, litAt s i "top".data,
     litAt s i "recommend".data, litAt s i "bestseller".data,
     litAt s i "trending".data]) s

/-- The regex `\b(ship|deliver|order|return|refund)\b`. -/
def shipRe (s : List Char) : Bool :=
  wbMatch (fun s i =>
    [litAt s i "ship".data, litAt s i "deliver".data, litAt s i "order".data,
     litAt s i "return".data, litAt s i "refund".data]) s

/-- Split a char list at every occurrence of the character `sep`
(`String.prototype.split` with a one-character separator). -/
def splitChar (sep : Char) : List Char → List (List Char)
  | [] => [[]]
  | c :: rest =>
    if c == sep then [] :: splitChar sep rest
    else
      match splitChar sep rest with
      | l :: ls => (c :: l) :: ls
      | [] => [[c]]

/-- JS `s.split(sep)` for a one-character separator. -/
def jsSplit (sep : Char) (s : String) : List String :=
  (splitChar sep s.data).map fun l => ⟨l⟩

/-- Break a char list at the first occurrence of `sep`: the text before it
and, when it occurs, the text after it. -/
def breakOn (sep : List Char) : List Char → List Char × Option (List Char)
  | [] => ([], none)
  | c :: rest =>
    if sep.isPrefixOf (c :: rest) then ([], some ((c :: rest).drop sep.length))
    else
      match breakOn sep rest with
      | (pre, post) => (c :: pre, post)

/-! ## The product catalog data model -/

/-- The `Product` records of the catalog module (`id`, `image` and `specs`
are never consulted by the AI service and are omitted). `rating` is the
source's decimal star rating carried in tenths of a star. -/
structure Product where
  name : String
  category : String
  price : Nat
  originalPrice : Option Nat := none
  rating : Nat
  reviews : Nat
  stock : Nat
  badge : Option String := none
  description : Option String := none
deriving Repr, DecidableEq

/-- Render a tenths-of-a-star rating the way JS renders the number
(`4.5`, or `4` when the fraction is zero). -/
def showRating (r : Nat) : String :=
  if r % 10 == 0 then toString (r / 10)
  else toString (r / 10) ++ "." ++ toString (r % 10)

/-- The comparator `(a, b) => b.rating - a.rating` as an order relation:
`a` may precede `b` when its rating is not smaller. The JS engine's
`Array.prototype.sort` is stable, as is `List.insertionSort` with this
relation. -/
def ratingDesc (a b : Product) : Prop :=
  b.rating ≤ a.rating

instance : DecidableRel ratingDesc := fun a b =>
  inferInstanceAs (Decidable (b.rating ≤ a.rating))

instance : IsTotal Product ratingDesc :=
  ⟨fun a b => (Nat.le_total b.rating a.rating).imp id id⟩

instance : IsTrans Product ratingDesc :=
  ⟨fun _ _ _ h h' => Nat.le_trans h' h⟩

/-- The comparator `(a, b) => (b.rating * b.reviews) - (a.rating * a.reviews)`
as an order relation. -/
def popDesc (a b : Product) : Prop :=
  b.rating * b.reviews ≤ a.rating * a.reviews

instance : DecidableRel popDesc := fun a b =>
  inferInstanceAs (Decidable (b.rating * b.reviews ≤ a.rating * a.reviews))

instance : IsTotal Product popDesc :=
  ⟨fun a b => (Nat.le_total (b.rating * b.reviews) (a.rating * a.reviews)).imp id id⟩

instance : IsTrans Product popDesc :=
  ⟨fun _ _ _ h h' => Nat.le_trans h' h⟩

/-- `buildProductCatalog`: one ` | `-joined line per product, the lines
joined with newlines. JS truthiness drops a zero `originalPrice` and empty
`badge`/`description` strings exactly as `p.x ? … : …` does. -/
def buildProductCatalog (products : List Product) : String :=
  String.intercalate "\n" (products.map fun p =>
    let parts := [p.name ++ " (₹" ++ toString p.price ++
        (match p.originalPrice with
         | some o => if o == 0 then "" else ", was ₹" ++ toString o
         | none => "") ++ ")",
      "Category: " ++ p.category,
      "Rating: " ++ showRating p.rating ++ "★ (" ++ toString p.reviews ++ " reviews)",
      "Stock: " ++ (if 0 < p.stock then toString p.stock ++ " available" else "Out of stock")]
    let parts := parts ++ (match p.badge with
      | some b => if b == "" then [] else ["Badge: " ++ b]
      | none => [])
    let parts := parts ++ (match p.description with
      | some d => if d == "" then [] else ["Description: " ++ d]
      | none => [])
    String.intercalate " | " parts)

/-! ## The local heuristic responder (`localChatFallback`) -/

/-- The chat language parameter `'en' | 'bn'`. -/
inductive Lang
  | en
  | bn
deriving DecidableEq, Repr

/-- The filtered, sorted list of the price-bound branch: filter to
`price <= maxPrice && stock > 0`, stable-sort by rating descending. -/
def sortedAffordable (products : List Product) (maxPrice : Nat) : List Product :=
  List.insertionSort ratingDesc
    (products.filter fun p => decide (p.price ≤ maxPrice) && decide (0 < p.stock))

/-- The price-bound branch of `localChatFallback` (source lines 74–84):
format the top 3 of the sorted affordable list; otherwise the fixed
consolation message. -/
def priceBranch (products : List Product) (maxPrice : Nat) (bn : Bool) : String :=
  let affordable := sortedAffordable products maxPrice
  if 0 < affordable.length then
    let top := String.intercalate ", "
      ((affordable.take 3).map fun p => "**" ++ p.name ++ "** (₹" ++ toString p.price ++ ")")
    if bn then "₹" ++ toString maxPrice ++ "-এর মধ্যে আমাদের সেরা পণ্য: " ++ top ++ "! 🎁"
    else "Great options under ₹" ++ toString maxPrice ++ ": " ++ top ++ "! 🎁"
  else
    if bn then "দুঃখিত, এই বাজেটে কোন পণ্য নেই।"
    else "Sorry, we don't have products in that budget range. Our most affordable option is the Rainbow Stacker at ₹1,199! 🌈"

/-- The keyword table of the category branch, in the source's entry order. -/
def categoryKeywords : List (String × List String) :=
  [("Educational", ["educational", "learning", "study", "teach", "school", "brain",
      "puzzle", "build", "castle", "stack"]),
   ("Plushies", ["plush", "stuffed", "soft", "teddy", "bear", "elephant", "cuddly",
      "hug", "cute"]),
   ("Robots", ["robot", "tech", "electronic", "galactic", "mech", "ai", "smart",
      "future"]),
   ("Outdoor Fun", ["outdoor", "car", "race", "rc", "remote", "train", "vehicle",
      "speed", "racer"]),
   ("Arts & Crafts", ["art", "craft", "draw", "paint", "color", "creative", "design",
      "sketch"]),
   ("Gifts", ["gift", "present", "birthday", "surprise", "party", "occasion",
      "special"])]

/-- The category-scoring loop: count matched keywords per category and keep
the first category with the strictly highest count (`matches > maxMatches`,
starting from 0). -/
def matchedCategory (input : List Char) : Option String :=
  (categoryKeywords.foldl
    (fun acc ck =>
      let cnt := (ck.2.filter fun k => hasSubstr k.data input).length
      if acc.2 < cnt then (some ck.1, cnt) else acc)
    ((none : Option String), 0)).1

/-- The category branch body (source lines 103–112): `none` when the matched
category has no in-stock product, in which case the source falls through. -/
def categoryAnswer (products : List Product) (cat : String) (bn : Bool) : Option String :=
  let catProducts :=
    List.insertionSort popDesc (products.filter fun p => p.category == cat && decide (0 < p.stock))
  if 0 < catProducts.length then
    let top := String.intercalate ", "
      ((catProducts.take 3).map fun p =>
        "**" ++ p.name ++ "** (₹" ++ toString p.price ++ ", " ++ showRating p.rating ++ "★)")
    some (if bn then cat ++ " বিভাগে আমাদের সেরা পণ্য: " ++ top ++ "! কোনটি পছন্দ হলো? 🎉"
      else "Great picks from " ++ cat ++ ": " ++ top ++ "! Want to know more about any of these? 🎉")
  else none

/-- The bestsellers branch (source lines 136–140). -/
def bestBranch (products : List Product) (bn : Bool) : String :=
  let bestSellers :=
    (List.insertionSort popDesc (products.filter fun p => decide (0 < p.stock))).take 3
  let list := String.intercalate ", "
    (bestSellers.map fun p =>
      "**" ++ p.name ++ "** (₹" ++ toString p.price ++ ", " ++ showRating p.rating ++ "★)")
  if bn then "আমাদের সেরা বিক্রিত পণ্য: " ++ list ++ "! 🌟"
  else "Our top sellers right now: " ++ list ++ "! 🌟 Would you like details on any of these?"

/-- The default branch (source lines 148–152). -/
def defaultBranch (products : List Product) (bn : Bool) : String :=
  let topPicks :=
    (List.insertionSort ratingDesc (products.filter fun p => decide (0 < p.stock))).take 3
  let list := String.intercalate ", "
    (topPicks.map fun p => "**" ++ p.name ++ "** (₹" ++ toString p.price ++ ")")
  if bn then "দুঃখিত, আমি ঠিক বুঝতে পারিনি। তবে আমাদের জনপ্রিয় পণ্যগুলো দেখুন: " ++ list ++ "! আমাকে বয়স, বাজেট বা পছন্দের বিষয় জানান, আমি সেরা পণ্য খুঁজে দেব! 🎁"
  else "I'd love to help! Here are some popular picks: " ++ list ++ ". Tell me the recipient's age, interests, or budget and I'll find the perfect match! 🎁"

/-- The branches after the category branch, in source order: age buckets,
greeting, thanks, bestsellers, shipping, default (source lines 114–152). -/
def afterCategory (products : List Product) (s : List Char) (bn : Bool) : String :=
  if ageBabyRe s then
    if bn then "ছোট বাচ্চাদের জন্য: **Rainbow Stacker** (₹1,199) এবং **Cuddly Elephant** (₹1,699) অসাধারণ! নিরাপদ এবং রঙিন। 🧸"
    else "For little ones, I'd recommend **Rainbow Stacker** (₹1,199) and **Cuddly Elephant** (₹1,699) — safe, colorful, and perfect for tiny hands! 🧸"
  else if agePreschoolRe s || ageYearFirstRe s then
    if bn then "৩-৬ বছরের বাচ্চাদের জন্য: **Castle Builder Set** (₹7,999), **Mega Art Kit** (₹2,999), **Surprise Gift Box** (₹1,699)! 🏰🎨"
    else "For ages 3-6: **Castle Builder Set** (₹7,999) for problem-solving, **Mega Art Kit** (₹2,999) for creativity, or **Surprise Gift Box** (₹1,699) for delightful surprises! 🏰🎨"
  else if ageOlderRe s then
    if bn then "বড় বাচ্চাদের জন্য: **Super Galactic Robot** (₹3,999), **Speed Racer RC** (₹3,499), **Medieval Castle** (₹3,899)! 🤖🏎️"
    else "For older kids: **Super Galactic Robot** (₹3,999) with voice commands, **Speed Racer RC** (₹3,499) for thrills, or **Medieval Castle** (₹3,899) for creative play! 🤖🏎️"
  else if greetingEnRe s || greetingBnRe s then
    if bn then "নমস্কার! 👋 আমি গিফটবট। আপনাকে কীভাবে সাহায্য করতে পারি? আমাদের কাছে শিক্ষামূলক খেলনা, প্লাশি, রোবট, আর্ট কিট এবং আরও অনেক কিছু আছে!"
    else "Hey there! 👋 Welcome to SarkarBrothers'! I can help you find the perfect toy. We have educational toys, plushies, robots, art kits, RC cars, and gift sets. What are you looking for?"
  else if thanksEnRe s || thanksBnRe s then
    if bn then "আপনাকে ধন্যবাদ! 🎉 SarkarBrothers'-এ কেনাকাটা করায় খুশি হলাম। আবার আসবেন!"
    else "You're welcome! 🎉 Happy toy shopping at SarkarBrothers'! Come back anytime!"
  else if bestRe s then
    bestBranch products bn
  else if shipRe s then
    if bn then "₹2,000-এর উপরে অর্ডারে বিনামূল্যে ডেলিভারি! ৩-৫ কার্যদিবসে পৌঁছে যাবে। ৭ দিনের মধ্যে সহজ রিটার্ন। 📦"
    else "Free shipping on orders above ₹2,000! Standard delivery takes 3-5 business days. Easy returns within 7 days. You can also order via WhatsApp! 📦"
  else defaultBranch products bn

/-- `localChatFallback` (source lines 70–153): lowercase the message, then
try the branches in their fixed order — price-bound, category, and the
`afterCategory` chain. -/
def localChatFallback (products : List Product) (message : String) (language : Lang) : String :=
  match priceMatchNum (jsToLower message).data with
  | some maxPrice => priceBranch products maxPrice (language == Lang.bn)
  | none =>
    match matchedCategory (jsToLower message).data with
    | some cat =>
      match categoryAnswer products cat (language == Lang.bn) with
      | some ans => ans
      | none => afterCategory products (jsToLower message).data (language == Lang.bn)
    | none => afterCategory products (jsToLower message).data (language == Lang.bn)

/-! ## The provider environment

The `@google/genai` client and the browser facilities the service touches
(`Image` preloading, `Date.now()`) are modelled as oracles. A remote call
either returns a response object (`Call.ok`) or throws (`Call.err`); the
response structures copy the optional-field shapes the source inspects. -/

/-- Outcome of one remote SDK call: a response, or a thrown exception. -/
inductive Call (α : Type)
  | ok (v : α)
  | err (msg : String)
deriving Repr

/-- The `image` object inside a generated-images entry. -/
structure ImagenImage where
  imageBytes : Option String
deriving Repr

/-- One entry of `response.generatedImages`. -/
structure GeneratedImage where
  image : Option ImagenImage
deriving Repr

/-- Response shape of `generateImages` / `editImage`. -/
structure ImagenResponse where
  generatedImages : Option (List GeneratedImage)
deriving Repr

/-- `part.inlineData` of a multimodal response part. -/
structure InlineData where
  mimeType : Option String
  data : Option String
deriving Repr

/-- One part of a candidate's content. -/
structure GenPart where
  inlineData : Option InlineData
deriving Repr

/-- `candidate.content` of a `generateContent` response. -/
structure GenContent where
  parts : Option (List GenPart)
deriving Repr

/-- One entry of `response.candidates`. -/
structure Candidate where
  content : Option GenContent
deriving Repr

/-- Response shape of `generateContent` (`text` is the convenience
accessor the chat paths read). -/
structure GenResponse where
  candidates : Option (List Candidate) := none
  text : Option String := none
deriving Repr

/-- Request of `generateImages`. -/
structure ImagenRequest where
  model : String
  prompt : String
  numberOfImages : Nat
deriving Repr, DecidableEq

/-- Request of `editImage`. -/
structure ImagenEditRequest where
  model : String
  prompt : String
  imageBytes : String
  mimeType : String
deriving Repr, DecidableEq

/-- One part of a request content item. -/
inductive ReqPart
  | text (s : String)
  | inlineData (mimeType : String) (data : String)
deriving Repr, DecidableEq

/-- One `{role, parts}` item of a `generateContent` request. -/
structure ReqContentItem where
  role : String
  parts : List ReqPart
deriving Repr, DecidableEq

/-- The `contents` argument: a bare string or a list of items. -/
inductive ReqContents
  | str (s : String)
  | items (l : List ReqContentItem)
deriving Repr, DecidableEq

/-- Request of `generateContent` (`responseModalities` carries the config
the image strategies set). -/
structure GenRequest where
  model : String
  contents : ReqContents
  responseModalities : List String := []
deriving Repr, DecidableEq

/-- What the `<img>` preload of a Pollinations URL does: fire `onload`,
fire `onerror`, or let the 60-second timeout elapse. -/
inductive PollSignal
  | loads
  | errors
  | timesOut
deriving Repr, DecidableEq

/-- The ambient environment of the AI service module: the configured key,
whether the client object was constructed (`ai !== null`), and the
behavior of each remote endpoint. -/
structure ProviderEnv where
  apiKey : String
  initFailed : Bool
  imagenGen : ImagenRequest → Call ImagenResponse
  imagenEdit : ImagenEditRequest → Call ImagenResponse
  genContent : GenRequest → Call GenResponse
  pollSignal : String → PollSignal

/-- `ai !== null`: the client exists when a non-dummy key is configured and
the constructor did not throw (source lines 5–15). -/
def aiPresent (env : ProviderEnv) : Bool :=
  env.apiKey != "" && env.apiKey != "dummy_api_key_replace_me" && !env.initFailed

/-- The keyless test `!API_KEY || API_KEY === 'dummy_api_key_replace_me' || !ai`
guarding the chat, search and voice entry points. -/
def keyless (env : ProviderEnv) : Bool :=
  env.apiKey == "" || env.apiKey == "dummy_api_key_replace_me" || !aiPresent env

/-! ## Image generation strategies -/

/-- The request `tryImagenGenerate` constructs: one image of the
embellished prompt. -/
def imagenGenRequest (prompt : String) : ImagenRequest :=
  ⟨"imagen-3.0-generate-002", prompt ++ ". Colorful, kid-friendly, toy shop style.", 1⟩

/-- `tryImagenGenerate` (source lines 209–229): call `generateImages` on
`imagen-3.0-generate-002`; any thrown error, missing field or empty byte
string becomes `none`. -/
def tryImagenGenerate (env : ProviderEnv) (prompt : String) : Option String :=
  if aiPresent env then
    match env.imagenGen (imagenGenRequest prompt) with
    | .err _ => none
    | .ok resp =>
      match resp.generatedImages with
      | some (g :: _) =>
        match g.image with
        | some img =>
          match img.imageBytes with
          | some b => if b != "" then some ("data:image/png;base64," ++ b) else none
          | none => none
        | none => none
      | _ => none
  else none

/-- The first inline-data part of a multimodal response, rendered as a data
URI with the source's `mimeType || 'image/png'` default. -/
def findInlinePart : List GenPart → Option String
  | [] => none
  | p :: rest =>
    match p.inlineData with
    | some d =>
      match d.data with
      | some dat =>
        if dat != "" then
          let mt := match d.mimeType with
            | some m => if m != "" then m else "image/png"
            | none => "image/png"
          some ("data:" ++ mt ++ ";base64," ++ dat)
        else findInlinePart rest
      | none => findInlinePart rest
    | none => findInlinePart rest

/-- The two Gemini model variants tried in order by the image strategies. -/
def geminiImageModels : List String :=
  ["gemini-2.0-flash-preview-image-generation", "gemini-2.0-flash-exp"]

/-- The request one `tryGeminiImageGenerate` iteration constructs. -/
def geminiGenRequest (prompt model : String) : GenRequest :=
  ⟨model,
   .str ("Generate a high-quality image of: " ++ prompt ++
     ". Make it colorful, kid-friendly, and suitable for a toy shop."),
   ["TEXT", "IMAGE"]⟩

/-- One loop iteration of `tryGeminiImageGenerate`: the `generateContent`
call for one model, its thrown errors and missing fields absorbed. -/
def geminiGenerateAttempt (env : ProviderEnv) (prompt : String) (model : String) : Option String :=
  match env.genContent (geminiGenRequest prompt model) with
  | .err _ => none
  | .ok resp =>
    match resp.candidates with
    | some (c :: _) =>
      match c.content with
      | some ct =>
        match ct.parts with
        | some parts => findInlinePart parts
        | none => none
      | none => none
    | _ => none

/-- `tryGeminiImageGenerate` (source lines 234–263): the two model variants
in order, first inline-data part wins. -/
def tryGeminiImageGenerate (env : ProviderEnv) (prompt : String) : Option String :=
  if aiPresent env then
    match geminiGenerateAttempt env prompt "gemini-2.0-flash-preview-image-generation" with
    | some r => some r
    | none => geminiGenerateAttempt env prompt "gemini-2.0-flash-exp"
  else none

/-! ## The keyless Pollinations strategy -/

/-- Hexadecimal digit (uppercase), as `encodeURIComponent` produces. -/
def hexDigit (n : Nat) : Char :=
  if n < 10 then Char.ofNat ('0'.toNat + n) else Char.ofNat ('A'.toNat + (n - 10))

/-- UTF-8 bytes of one code point. -/
def utf8Bytes (n : Nat) : List Nat :=
  if n < 0x80 then [n]
  else if n < 0x800 then [0xc0 + n / 0x40, 0x80 + n % 0x40]
  else if n < 0x10000 then [0xe0 + n / 0x1000, 0x80 + n / 0x40 % 0x40, 0x80 + n % 0x40]
  else [0xf0 + n / 0x40000, 0x80 + n / 0x1000 % 0x40, 0x80 + n / 0x40 % 0x40, 0x80 + n % 0x40]

/-- The characters `encodeURIComponent` leaves unescaped. -/
def uriUnreserved (c : Char) : Bool :=
  c.isAlpha || c.isDigit ||
  c == '-' || c == '_' || c == '.' || c == '!' || c == '~' || c == '*' ||
  c == '\'' || c == '(' || c == ')'

/-- `encodeURIComponent`: unreserved characters pass, everything else is
percent-encoded per UTF-8 byte with uppercase hex. -/
def encodeURIComponent (s : String) : String :=
  s.data.foldl
    (fun acc c =>
      if uriUnreserved c then acc.push c
      else acc ++ String.join ((utf8Bytes c.toNat).map fun b =>
        ⟨['%', hexDigit (b / 16), hexDigit (b % 16)]⟩))
    ""

/-- The URL `tryPollinationsGenerate` constructs: encoded embellished
prompt, dimensions clamped to 1024, and `Date.now()` as the seed. -/
def pollinationsUrl (prompt : String) (width height : Nat) (now : Nat) : String :=
  "https://image.pollinations.ai/prompt/" ++
    encodeURIComponent (prompt ++ ", colorful kids toy illustration, bright cheerful, white background") ++
    "?width=" ++ toString (min width 1024) ++ "&height=" ++ toString (min height 1024) ++
    "&nologo=true&seed=" ++ toString now

/-- `tryPollinationsGenerate` (source lines 269–293): resolve with the URL
when the preload fires `onload`, reject with the corresponding message on
`onerror` or on the 60-second timeout. `now` is the `Date.now()` reading of
this invocation. -/
def tryPollinationsGenerate (env : ProviderEnv) (now : Nat) (prompt : String)
    (width height : Nat) : Except String String :=
  let url := pollinationsUrl prompt width height now
  match env.pollSignal url with
  | .loads => .ok url
  | .errors => .error "Pollinations image failed to load"
  | .timesOut => .error "Image generation timed out"

/-! ## The generation chain -/

/-- The size parameter `'1024x1024' | '2048x2048' | '4096x4096'`. -/
inductive ImgSize
  | s1024
  | s2048
  | s4096
deriving DecidableEq, Repr

/-- The literal string of a size value. -/
def ImgSize.str : ImgSize → String
  | .s1024 => "1024x1024"
  | .s2048 => "2048x2048"
  | .s4096 => "4096x4096"

/-- `Number` applied to one digit-string part of `size.split('x')`. -/
def jsNumberNat (s : String) : Nat :=
  parseDigits s.data

/-- The width of `const [w, h] = size.split('x').map(Number)`. -/
def sizeW (size : ImgSize) : Nat :=
  ((jsSplit 'x' size.str).map jsNumberNat).getD 0 0

/-- The height of `const [w, h] = size.split('x').map(Number)`. -/
def sizeH (size : ImgSize) : Nat :=
  ((jsSplit 'x' size.str).map jsNumberNat).getD 1 0

/-- `generateImageWithPrompt` (source lines 295–321): Imagen, then the
Gemini variants, then Pollinations; a terminal error if all fail. The
Pollinations block is the code after the `if (ai)` body, written out on
both paths that reach it. -/
def generateImageWithPrompt (env : ProviderEnv) (now : Nat) (prompt : String)
    (size : ImgSize) : Except String String :=
  if aiPresent env then
    match tryImagenGenerate env prompt with
    | some r => .ok r
    | none =>
      match tryGeminiImageGenerate env prompt with
      | some r => .ok r
      | none =>
        match tryPollinationsGenerate env now prompt (sizeW size) (sizeH size) with
        | .ok url => .ok url
        | .error _ =>
          .error "All image generation services are currently unavailable. Please try again in a moment."
  else
    match tryPollinationsGenerate env now prompt (sizeW size) (sizeH size) with
    | .ok url => .ok url
    | .error _ =>
      .error "All image generation services are currently unavailable. Please try again in a moment."

/-! ## Image editing strategies -/

/-- The base64 alphabet. -/
def base64Char (n : Nat) : Char :=
  if n < 26 then Char.ofNat ('A'.toNat + n)
  else if n < 52 then Char.ofNat ('a'.toNat + (n - 26))
  else if n < 62 then Char.ofNat ('0'.toNat + (n - 52))
  else if n == 62 then '+'
  else '/'

/-- Base64 of a byte list: the value of `btoa` over the byte string the
source assembles with `String.fromCharCode`. -/
def base64Encode : List (Fin 256) → String
  | [] => ""
  | [a] =>
    ⟨[base64Char (a.val / 4), base64Char (a.val % 4 * 16), '=', '=']⟩
  | [a, b] =>
    ⟨[base64Char (a.val / 4), base64Char (a.val % 4 * 16 + b.val / 16),
      base64Char (b.val % 16 * 4), '=']⟩
  | a :: b :: c :: rest =>
    (⟨[base64Char (a.val / 4), base64Char (a.val % 4 * 16 + b.val / 16),
       base64Char (b.val % 16 * 4 + c.val / 64), base64Char (c.val % 64)]⟩ : String) ++
    base64Encode rest

/-- A browser `File`: its bytes and its `type` attribute. -/
structure JsFile where
  bytes : List (Fin 256)
  type : String
deriving DecidableEq

/-- `tryImagenEdit` (source lines 328–345). -/
def tryImagenEdit (env : ProviderEnv) (base64 mimeType prompt : String) : Option String :=
  if aiPresent env then
    match env.imagenEdit
        ⟨"imagen-3.0-capability-001",
         prompt ++ ". Keep it kid-friendly and suitable for a toy shop.",
         base64, mimeType⟩ with
    | .err _ => none
    | .ok resp =>
      match resp.generatedImages with
      | some (g :: _) =>
        match g.image with
        | some img =>
          match img.imageBytes with
          | some b => if b != "" then some ("data:image/png;base64," ++ b) else none
          | none => none
        | none => none
      | _ => none
  else none

/-- The request one `tryGeminiImageEdit` iteration constructs. -/
def geminiEditRequest (base64 mimeType prompt model : String) : GenRequest :=
  ⟨model,
   .items [⟨"user",
     [.inlineData mimeType base64,
      .text ("Edit this image: " ++ prompt ++ ". Keep it kid-friendly and suitable for a toy shop.")]⟩],
   ["TEXT", "IMAGE"]⟩

/-- One loop iteration of `tryGeminiImageEdit`: the multimodal call sending
the image and the edit instruction for one model. -/
def geminiEditAttempt (env : ProviderEnv) (base64 mimeType prompt : String)
    (model : String) : Option String :=
  match env.genContent (geminiEditRequest base64 mimeType prompt model) with
  | .err _ => none
  | .ok resp =>
    match resp.candidates with
    | some (c :: _) =>
      match c.content with
      | some ct =>
        match ct.parts with
        | some parts => findInlinePart parts
        | none => none
      | none => none
    | _ => none

/-- `tryGeminiImageEdit` (source lines 350–387): the two model variants in
order. -/
def tryGeminiImageEdit (env : ProviderEnv) (base64 mimeType prompt : String) : Option String :=
  if aiPresent env then
    match geminiEditAttempt env base64 mimeType prompt "gemini-2.0-flash-preview-image-generation" with
    | some r => some r
    | none => geminiEditAttempt env base64 mimeType prompt "gemini-2.0-flash-exp"
  else none

/-- The `imageFile.type || 'image/png'` mime default of
`editImageWithPrompt`. -/
def editMime (imageFile : JsFile) : String :=
  if imageFile.type == "" then "image/png" else imageFile.type

/-- `editImageWithPrompt` (source lines 389–416): base64-encode the file,
try the Imagen edit, the Gemini edits, then fall back to a fresh
Pollinations *generation* from the instruction text alone. The Pollinations
block is the code after the `if (ai)` body, written out on both paths. -/
def editImageWithPrompt (env : ProviderEnv) (now : Nat) (imageFile : JsFile)
    (prompt : String) : Except String String :=
  if aiPresent env then
    match tryImagenEdit env (base64Encode imageFile.bytes) (editMime imageFile) prompt with
    | some r => .ok r
    | none =>
      match tryGeminiImageEdit env (base64Encode imageFile.bytes) (editMime imageFile) prompt with
      | some r => .ok r
      | none =>
        match tryPollinationsGenerate env now (prompt ++ ", toy illustration") 1024 1024 with
        | .ok url => .ok url
        | .error _ =>
          .error "Image editing failed. Please check your internet connection and try again."
  else
    match tryPollinationsGenerate env now (prompt ++ ", toy illustration") 1024 1024 with
    | .ok url => .ok url
    | .error _ =>
      .error "Image editing failed. Please check your internet connection and try again."

/-! ## The chat entry point (`generateGiftSuggestions`) -/

/-- The role of a `ChatMessage`: `'user' | 'model'`. -/
inductive ChatRole
  | user
  | model
deriving DecidableEq, Repr

/-- The exported `ChatMessage` interface. -/
structure ChatMessage where
  role : ChatRole
  text : String
deriving DecidableEq, Repr

/-- The module-level `SYSTEM_PROMPT` template with the product catalog
spliced in (source lines 33–59). -/
def SYSTEM_PROMPT (products : List Product) : String :=
  "You are GiftBot, the friendly AI shopping assistant for SarkarBrothers' — a cheerful, colorful children's toy shop.\n\nYOUR ROLE:\n- Help customers find the perfect toy or gift\n- Answer questions about products, prices, categories, and availability\n- Make personalized recommendations based on age, interests, budget, and occasion\n- Be warm, enthusiastic, and concise (under 100 words per response)\n- Use relevant emojis to keep the tone playful and kid-friendly\n\nPRODUCT CATALOG:\n" ++
  buildProductCatalog products ++
  "\n\nCATEGORIES: Educational, Outdoor Fun, Plushies, Arts & Crafts, Robots, Gifts\n\nSHOP POLICIES:\n- Free shipping on orders above ₹2,000\n- Standard delivery: 3-5 business days\n- Easy returns within 7 days\n- Safe, BPA-free materials\n\nRULES:\n- Always recommend products FROM the catalog above — never invent products\n- Mention specific product names and prices when recommending\n- If a query is unrelated to toys/gifts, politely redirect to toy shopping\n- If a product is out of stock, say so and suggest alternatives\n- For gift queries, ask about the recipient's age and interests if not provided\n- Keep responses concise, helpful, and action-oriented"

/-- The conversation contents `generateGiftSuggestions` sends: system
prompt, canned greeting, the last 20 history turns, then the message
(source lines 168–185). -/
def buildChatContents (products : List Product) (message : String)
    (history : List ChatMessage) (language : Lang) : List ReqContentItem :=
  let langInstruction :=
    if language == Lang.bn then "\n\nIMPORTANT: Reply strictly in Bengali (Bangla) language." else ""
  let contents : List ReqContentItem :=
    [⟨"user", [.text (SYSTEM_PROMPT products ++ langInstruction)]⟩,
     ⟨"model", [.text (if language == Lang.bn then
        "নমস্কার! 👋 আমি গিফটবট। আমাকে বলুন কীভাবে সাহায্য করতে পারি!"
      else
        "Hi there! 👋 I'm GiftBot, ready to help you find the perfect toy! What can I do for you today?")]⟩]
  let recentHistory := history.drop (history.length - 20)
  let contents := contents ++ recentHistory.map fun m =>
    (⟨if m.role == ChatRole.user then "user" else "model", [.text m.text]⟩ : ReqContentItem)
  contents ++ [⟨"user", [.text message]⟩]

/-- `generateGiftSuggestions` (source lines 157–202): keyless requests go
straight to the local fallback; otherwise one remote call whose thrown
error, missing text or whitespace-only text all fall back locally. No
input validation is performed. -/
def generateGiftSuggestions (env : ProviderEnv) (products : List Product) (message : String)
    (history : List ChatMessage) (language : Lang) : String :=
  if keyless env then localChatFallback products message language
  else
    match env.genContent
        ⟨"gemini-2.0-flash", .items (buildChatContents products message history language), []⟩ with
    | .err _ => localChatFallback products message language
    | .ok resp =>
      match resp.text with
      | some t =>
        let text := jsTrim t
        if text != "" then text else localChatFallback products message language
      | none => localChatFallback products message language

/-! ## Search recommendations (`generateSearchRecommendations`) -/

/-- The static three-category default returned when keyless, on error, and
on an empty parse. -/
def defaultSearchCategories : List String :=
  ["Educational", "Plushies", "Outdoor Fun"]

/-- The prompt template of `generateSearchRecommendations` (source lines
426–438), indentation of the template literal included. -/
def searchPrompt (searchQuery : String) : String :=
  "You are an intelligent toy shop assistant. A customer searched for: \"" ++ searchQuery ++
  "\".\n    \n    Based on this search query, identify the top 3-4 most relevant toy categories from this list:\n    [Educational, Outdoor Fun, Plushies, Arts & Crafts, Robots, Gifts]\n    \n    Consider:\n    - Direct matches (e.g., \"robot\" → Robots)\n    - Related concepts (e.g., \"learning\" → Educational, \"stuffed animal\" → Plushies)\n    - Age-appropriate categories (e.g., \"baby\" → Plushies, \"teenager\" → Robots)\n    - Activity types (e.g., \"painting\" → Arts & Crafts)\n    \n    Return ONLY the category names separated by commas, ordered by relevance.\n    Example: \"Robots, Educational, Outdoor Fun\""

/-- `generateSearchRecommendations` (source lines 420–454): one remote
call; the response text is split on commas, trimmed, cleared of empties and
capped at 4, with the static default on every failure path. The `language`
parameter is accepted and unused, as in the source. -/
def generateSearchRecommendations (env : ProviderEnv) (searchQuery : String)
    (language : Lang) : List String :=
  if keyless env then defaultSearchCategories
  else
    match env.genContent ⟨"gemini-2.0-flash", .str (searchPrompt searchQuery), []⟩ with
    | .err _ => defaultSearchCategories
    | .ok resp =>
      match resp.text with
      | none => defaultSearchCategories
      | some responseText =>
        if responseText = "" then defaultSearchCategories
        else
          let categories :=
            (((jsSplit ',' responseText).map jsTrim).filter fun s => 0 < s.length).take 4
          if 0 < categories.length then categories else defaultSearchCategories

/-! ## A concrete catalog snapshot -/

/-- Modelled from the spec: the product catalog (the `data` module the AI
service imports is not among the sources). The two products are the
catalog of the spec's Scenario A — `Rainbow Stacker` (₹1199, Educational,
stock 5) and `Cuddly Elephant` (₹1699, Plushies, stock 3) — with rating,
review and optional-field values chosen representatively where the spec is
silent. -/
def specCatalog : List Product :=
  [{ name := "Rainbow Stacker", category := "Educational", price := 1199,
     rating := 48, reviews := 178, stock := 5 },
   { name := "Cuddly Elephant", category := "Plushies", price := 1699,
     originalPrice := some 1999, rating := 47, reviews := 154, stock := 3,
     badge := some "Bestseller", description := some "A soft plush friend for bedtime." }]

/-- Re-parse one catalog line: the text before the first ` | `, broken at
the first ` (₹`, yields the product name and the digits of its price. -/
def parseCatalogLine (line : List Char) : Option (String × Nat) :=
  match breakOn " (₹".data (breakOn " | ".data line).1 with
  | (namePart, some rest) =>
    let ds := rest.takeWhile Char.isDigit
    if ds.isEmpty then none else some (⟨namePart⟩, parseDigits ds)
  | (_, none) => none

/-- Re-parse a catalog context block into its (name, price) pairs. -/
def parseCatalog (s : String) : List (String × Nat) :=
  if s == "" then [] else (splitChar '\n' s.data).filterMap parseCatalogLine

/-- A data URI, as the Imagen/Gemini strategies produce. -/
def isDataUri (s : String) : Bool :=
  "data:".data.isPrefixOf s.data

/-- A provider environment with no credential configured and a Pollinations
service whose images load: every remote SDK call would throw, the keyless
strategy succeeds. -/
def keylessLoadsEnv : ProviderEnv :=
  { apiKey := "", initFailed := false,
    imagenGen := fun _ => .err "API key not configured",
    imagenEdit := fun _ => .err "API key not configured",
    genContent := fun _ => .err "API key not configured",
    pollSignal := fun _ => .loads }

/-- A credentialed environment whose text endpoint answers the search
prompt with `"Cats, Cats"`: a name outside the category vocabulary,
twice. -/
def dupReplyEnv : ProviderEnv :=
  { apiKey := "test-key", initFailed := false,
    imagenGen := fun _ => .err "unsupported",
    imagenEdit := fun _ => .err "unsupported",
    genContent := fun _ => .ok { text := some "Cats, Cats" },
    pollSignal := fun _ => .errors }

/-- An environment with a credential whose every strategy fails: all SDK
calls throw and the Pollinations preload errors. -/
def allFailEnv : ProviderEnv :=
  { apiKey := "test-key", initFailed := false,
    imagenGen := fun _ => .err "transport error",
    imagenEdit := fun _ => .err "transport error",
    genContent := fun _ => .err "transport error",
    pollSignal := fun _ => .errors }

/-- A one-product catalog whose only plush toy is out of stock. -/
def teddyOnly : List Product :=
  [{ name := "Teddy One", category := "Plushies", price := 999,
     rating := 45, reviews := 10, stock := 0 }]

/-- A credentialed environment whose Imagen endpoint returns one image with
bytes `"QUJD"`; everything else fails. -/
def imagenOkEnv : ProviderEnv :=
  { apiKey := "test-key", initFailed := false,
    imagenGen := fun _ => .ok { generatedImages := some [{ image := some { imageBytes := some "QUJD" } }] },
    imagenEdit := fun _ => .err "unsupported",
    genContent := fun _ => .err "unsupported",
    pollSignal := fun _ => .loads }

/-! ## Helper lemmas -/

theorem str_ne_empty_left {s : String} (t : String) (h : s ≠ "") : s ++ t ≠ "" := by
  intro he
  apply h
  have hd : s.data ++ t.data = ([] : List Char) := by
    have := congrArg String.data he
    simpa [String.data_append] using this
  exact String.ext (List.append_eq_nil.mp hd).1

theorem str_ne_empty_right (s : String) {t : String} (h : t ≠ "") : s ++ t ≠ "" := by
  intro he
  apply h
  have hd : s.data ++ t.data = ([] : List Char) := by
    have := congrArg String.data he
    simpa [String.data_append] using this
  exact String.ext (List.append_eq_nil.mp hd).2

theorem isPrefixOf_append_of_length_le (p a b : List Char) (h : p.length ≤ a.length) :
    p.isPrefixOf (a ++ b) = p.isPrefixOf a := by
  induction p generalizing a with
  | nil => simp [List.isPrefixOf]
  | cons c cs ih =>
    cases a with
    | nil => simp at h
    | cons d ds =>
      simp only [List.cons_append, List.isPrefixOf, List.append_eq,
        ih ds (by simpa using h)]

/-! ## The claims -/

set_option maxRecDepth 40000

/-- C9: re-parsing the Catalog Context Builder's output (one ` | `-joined
line per product, beginning with `name (₹price…)`) recovers exactly the
product names and prices of the source catalog snapshot. -/
theorem catalog_context_roundtrip :
    parseCatalog (buildProductCatalog specCatalog) =
      specCatalog.map fun p => (p.name, p.price) := by
  decide

/-- C3 (amended): the parse step of `generateSearchRecommendations` trims,
drops empties, caps at 4 and preserves the provider's order, but neither
dedupes nor restricts to the category vocabulary; the result always has at
most 4 entries, and the keyless, thrown-error, missing-text, empty-text and
empty-parse paths all return the static default, which itself is a
duplicate-free subset of the 6-category vocabulary. -/
theorem generateSearchRecommendations_parse (env : ProviderEnv) (searchQuery : String)
    (language : Lang) :
    (generateSearchRecommendations env searchQuery language).length ≤ 4 ∧
    (keyless env = true →
      generateSearchRecommendations env searchQuery language = defaultSearchCategories) ∧
    (∀ m, keyless env = false →
      env.genContent ⟨"gemini-2.0-flash", .str (searchPrompt searchQuery), []⟩ = .err m →
      generateSearchRecommendations env searchQuery language = defaultSearchCategories) ∧
    (∀ resp t, keyless env = false →
      env.genContent ⟨"gemini-2.0-flash", .str (searchPrompt searchQuery), []⟩ = .ok resp →
      resp.text = some t → t ≠ "" →
      generateSearchRecommendations env searchQuery language =
        (if 0 <
            ((((jsSplit ',' t).map jsTrim).filter fun s => 0 < s.length).take 4).length then
          (((jsSplit ',' t).map jsTrim).filter fun s => 0 < s.length).take 4
        else defaultSearchCategories)) ∧
    defaultSearchCategories.Nodup ∧
    defaultSearchCategories ⊆
      ["Educational", "Outdoor Fun", "Plushies", "Arts & Crafts", "Robots", "Gifts"] := by
  refine ⟨?_, ?_, ?_, ?_, by decide, by decide⟩
  · unfold generateSearchRecommendations
    cases hk : keyless env with
    | true => simp [defaultSearchCategories]
    | false =>
      simp only [Bool.false_eq_true, if_false]
      cases hc : env.genContent ⟨"gemini-2.0-flash", .str (searchPrompt searchQuery), []⟩ with
      | err m => simp [defaultSearchCategories]
      | ok resp =>
        cases ht : resp.text with
        | none => simp [ht, defaultSearchCategories]
        | some t =>
          simp only [ht]
          by_cases he : t = ""
          · simp [he, defaultSearchCategories]
          · rw [if_neg he]
            split
            · exact le_trans (List.length_take_le 4 _) (le_refl 4)
            · decide
  · intro hk
    unfold generateSearchRecommendations
    simp [hk]
  · intro m hk hc
    unfold generateSearchRecommendations
    simp [hk, hc]
  · intro resp t hk hc ht hne
    unfold generateSearchRecommendations
    simp only [hk, Bool.false_eq_true, if_false, hc, ht]
    rw [if_neg hne]

/-- C3 counterexample: with a provider answering `"Cats, Cats"`, the
returned list repeats a name that is not in the 6-category vocabulary —
the parse step neither dedupes nor enforces the vocabulary. -/
theorem generateSearchRecommendations_dup_counterexample :
    generateSearchRecommendations dupReplyEnv "kittens" Lang.en = ["Cats", "Cats"] ∧
    ¬ (["Cats", "Cats"] : List String).Nodup ∧
    ("Cats" : String) ∉
      ["Educational", "Outdoor Fun", "Plushies", "Arts & Crafts", "Robots", "Gifts"] := by
  refine ⟨by decide, by decide, by decide⟩

/-- A Pollinations URL never carries the `data:` scheme: it starts with the
fixed `https://image.pollinations.ai/prompt/` base. -/
theorem isDataUri_pollinationsUrl (p : String) (w h now : Nat) :
    isDataUri (pollinationsUrl p w h now) = false := by
  unfold isDataUri pollinationsUrl
  simp only [String.data_append, List.append_assoc]
  rw [isPrefixOf_append_of_length_le _ _ _ (by decide)]
  decide

/-- C1: `generateImageWithPrompt` attempts Imagen, then the two Gemini
variants, then the keyless Pollinations strategy, in that order; the first
non-null payload wins; with no credential the two credentialed strategies
are skipped (they yield `none`) while Pollinations is still attempted; a
Pollinations win returns the resolved URL, which is not a data URI; and
when every strategy fails the terminal error is thrown. -/
theorem generateImageWithPrompt_strategy_chain (env : ProviderEnv) (now : Nat)
    (prompt : String) (size : ImgSize) :
    (∀ r, tryImagenGenerate env prompt = some r →
      generateImageWithPrompt env now prompt size = .ok r) ∧
    (tryImagenGenerate env prompt = none →
      ∀ r, tryGeminiImageGenerate env prompt = some r →
        generateImageWithPrompt env now prompt size = .ok r) ∧
    (aiPresent env = false →
      tryImagenGenerate env prompt = none ∧ tryGeminiImageGenerate env prompt = none) ∧
    (tryImagenGenerate env prompt = none →
      tryGeminiImageGenerate env prompt = none →
      ∀ url, tryPollinationsGenerate env now prompt (sizeW size) (sizeH size) = .ok url →
        generateImageWithPrompt env now prompt size = .ok url ∧ isDataUri url = false) ∧
    (tryImagenGenerate env prompt = none →
      tryGeminiImageGenerate env prompt = none →
      ∀ m, tryPollinationsGenerate env now prompt (sizeW size) (sizeH size) = .error m →
        generateImageWithPrompt env now prompt size =
          .error "All image generation services are currently unavailable. Please try again in a moment.") := by
  refine ⟨?_, ?_, ?_, ?_, ?_⟩
  · intro r h
    unfold generateImageWithPrompt
    cases hai : aiPresent env with
    | true => simp [h]
    | false =>
      unfold tryImagenGenerate at h
      rw [hai] at h
      simp at h
  · intro hA r h
    unfold generateImageWithPrompt
    cases hai : aiPresent env with
    | true => simp [hA, h]
    | false =>
      unfold tryGeminiImageGenerate at h
      rw [hai] at h
      simp at h
  · intro hai
    constructor
    · unfold tryImagenGenerate
      rw [hai]
      simp
    · unfold tryGeminiImageGenerate
      rw [hai]
      simp
  · intro hA hB url hC
    refine ⟨?_, ?_⟩
    · unfold generateImageWithPrompt
      cases hai : aiPresent env with
      | true => simp [hA, hB, hC]
      | false => simp [hC]
    · have : url = pollinationsUrl prompt (sizeW size) (sizeH size) now := by
        simp only [tryPollinationsGenerate] at hC
        cases hs : env.pollSignal (pollinationsUrl prompt (sizeW size) (sizeH size) now) with
        | loads => rw [hs] at hC; simpa using hC.symm
        | errors => rw [hs] at hC; simp at hC
        | timesOut => rw [hs] at hC; simp at hC
      rw [this]
      exact isDataUri_pollinationsUrl _ _ _ _
  · intro hA hB m hC
    unfold generateImageWithPrompt
    cases hai : aiPresent env with
    | true => simp [hA, hB, hC]
    | false => simp [hC]

/-- C1 witness: in the keyless environment with a loading Pollinations
service, both credentialed strategies yield `none`, the chain still
attempts Pollinations, and the result is its resolved URL — not a data
URI. -/
theorem generateImageWithPrompt_strategy_chain_witness :
    tryImagenGenerate keylessLoadsEnv "toy" = none ∧
    tryGeminiImageGenerate keylessLoadsEnv "toy" = none ∧
    generateImageWithPrompt keylessLoadsEnv 7 "toy" ImgSize.s1024 =
      .ok (pollinationsUrl "toy" 1024 1024 7) ∧
    isDataUri (pollinationsUrl "toy" 1024 1024 7) = false := by
  have h := generateImageWithPrompt_strategy_chain keylessLoadsEnv 7 "toy" ImgSize.s1024
  obtain ⟨-, -, h3, h4, -⟩ := h
  obtain ⟨hA, hB⟩ := h3 rfl
  have hC : tryPollinationsGenerate keylessLoadsEnv 7 "toy" (sizeW ImgSize.s1024)
      (sizeH ImgSize.s1024) = .ok (pollinationsUrl "toy" 1024 1024 7) := rfl
  obtain ⟨hok, hdata⟩ := h4 hA hB _ hC
  exact ⟨hA, hB, hok, hdata⟩

/-- C6 (amended): the image chain is a pure function of the request, the
provider behavior and the clock reading, the winning strategy is
clock-independent, and a win by Imagen or Gemini gives a clock-independent
result; but Strategy C embeds the `Date.now()` reading as the `seed` query
parameter of its URL, so a Pollinations win returns a URL that depends on
the invocation time. -/
theorem image_chain_clock_dependence (env : ProviderEnv) (prompt : String) (size : ImgSize) :
    (∀ now now' r, tryImagenGenerate env prompt = some r →
      generateImageWithPrompt env now prompt size =
        generateImageWithPrompt env now' prompt size) ∧
    (∀ now now' r, tryImagenGenerate env prompt = none →
      tryGeminiImageGenerate env prompt = some r →
      generateImageWithPrompt env now prompt size =
        generateImageWithPrompt env now' prompt size) ∧
    (∀ now, tryImagenGenerate env prompt = none →
      tryGeminiImageGenerate env prompt = none →
      env.pollSignal (pollinationsUrl prompt (sizeW size) (sizeH size) now) = .loads →
      generateImageWithPrompt env now prompt size =
        .ok (pollinationsUrl prompt (sizeW size) (sizeH size) now)) := by
  refine ⟨?_, ?_, ?_⟩
  · intro now now' r h
    unfold generateImageWithPrompt
    cases hai : aiPresent env with
    | true => simp [h]
    | false =>
      unfold tryImagenGenerate at h
      rw [hai] at h
      simp at h
  · intro now now' r hA hB
    unfold generateImageWithPrompt
    cases hai : aiPresent env with
    | true => simp [hA, hB]
    | false =>
      unfold tryGeminiImageGenerate at hB
      rw [hai] at hB
      simp at hB
  · intro now hA hB hs
    unfold generateImageWithPrompt
    have hC : tryPollinationsGenerate env now prompt (sizeW size) (sizeH size) =
        .ok (pollinationsUrl prompt (sizeW size) (sizeH size) now) := by
      simp only [tryPollinationsGenerate]
      rw [hs]
    cases hai : aiPresent env with
    | true => simp [hA, hB, hC]
    | false => simp [hC]

/-- C6 counterexample: identical request, identical provider behavior, two
clock readings — the chain returns two different URLs, because the seed in
the Pollinations URL is the clock. -/
theorem image_chain_seed_counterexample :
    generateImageWithPrompt keylessLoadsEnv 0 "toy robot" ImgSize.s1024 ≠
      generateImageWithPrompt keylessLoadsEnv 1 "toy robot" ImgSize.s1024 := by
  have h0 : generateImageWithPrompt keylessLoadsEnv 0 "toy robot" ImgSize.s1024 =
      .ok (pollinationsUrl "toy robot" 1024 1024 0) := rfl
  have h1 : generateImageWithPrompt keylessLoadsEnv 1 "toy robot" ImgSize.s1024 =
      .ok (pollinationsUrl "toy robot" 1024 1024 1) := rfl
  rw [h0, h1]
  intro h
  have hu : pollinationsUrl "toy robot" 1024 1024 0 =
      pollinationsUrl "toy robot" 1024 1024 1 := Except.ok.inj h
  exact absurd hu (by decide)

/-- C6 witness: when Imagen wins, the result is the same at two different
clock readings. -/
theorem image_chain_clock_dependence_witness :
    generateImageWithPrompt imagenOkEnv 0 "toy" ImgSize.s1024 =
      generateImageWithPrompt imagenOkEnv 999 "toy" ImgSize.s1024 :=
  (image_chain_clock_dependence imagenOkEnv "toy" ImgSize.s1024).1 0 999
    "data:image/png;base64,QUJD" rfl

/-- C7: when the Imagen edit and both Gemini edit attempts fail,
`editImageWithPrompt` falls back to a fresh Pollinations *generation* from
the instruction text alone — the fallback ignores the source image, so two
different files give the same result — and only when that also fails does
the terminal edit error get thrown. -/
theorem editImageWithPrompt_fallback_generates (env : ProviderEnv) (now : Nat)
    (imageFile : JsFile) (prompt : String) :
    (tryImagenEdit env (base64Encode imageFile.bytes) (editMime imageFile) prompt = none →
     tryGeminiImageEdit env (base64Encode imageFile.bytes) (editMime imageFile) prompt = none →
     (∀ url, tryPollinationsGenerate env now (prompt ++ ", toy illustration") 1024 1024 = .ok url →
        editImageWithPrompt env now imageFile prompt = .ok url) ∧
     (∀ m, tryPollinationsGenerate env now (prompt ++ ", toy illustration") 1024 1024 = .error m →
        editImageWithPrompt env now imageFile prompt =
          .error "Image editing failed. Please check your internet connection and try again.")) ∧
    (∀ imageFile' : JsFile,
      tryImagenEdit env (base64Encode imageFile.bytes) (editMime imageFile) prompt = none →
      tryGeminiImageEdit env (base64Encode imageFile.bytes) (editMime imageFile) prompt = none →
      tryImagenEdit env (base64Encode imageFile'.bytes) (editMime imageFile') prompt = none →
      tryGeminiImageEdit env (base64Encode imageFile'.bytes) (editMime imageFile') prompt = none →
      editImageWithPrompt env now imageFile prompt =
        editImageWithPrompt env now imageFile' prompt) := by
  have key : ∀ (f : JsFile),
      tryImagenEdit env (base64Encode f.bytes) (editMime f) prompt = none →
      tryGeminiImageEdit env (base64Encode f.bytes) (editMime f) prompt = none →
      editImageWithPrompt env now f prompt =
        match tryPollinationsGenerate env now (prompt ++ ", toy illustration") 1024 1024 with
        | .ok url => .ok url
        | .error _ =>
          .error "Image editing failed. Please check your internet connection and try again." := by
    intro f hA hB
    unfold editImageWithPrompt
    cases hai : aiPresent env with
    | true => simp [hA, hB]
    | false => rfl
  refine ⟨fun hA hB => ⟨?_, ?_⟩, fun f' hA hB hA' hB' => ?_⟩
  · intro url hC
    rw [key imageFile hA hB, hC]
  · intro m hC
    rw [key imageFile hA hB, hC]
  · rw [key imageFile hA hB, key f' hA' hB']

/-- C7 witness: in the keyless environment with a loading Pollinations
service, an edit request falls back to a freshly generated image — its URL
— for two different source files alike. -/
theorem editImageWithPrompt_fallback_generates_witness :
    editImageWithPrompt keylessLoadsEnv 5 ⟨[72, 105], "image/png"⟩ "make it blue" =
      .ok (pollinationsUrl "make it blue, toy illustration" 1024 1024 5) ∧
    editImageWithPrompt keylessLoadsEnv 5 ⟨[72, 105], "image/png"⟩ "make it blue" =
      editImageWithPrompt keylessLoadsEnv 5 ⟨[9, 9, 9], "image/jpeg"⟩ "make it blue" := by
  have h := editImageWithPrompt_fallback_generates keylessLoadsEnv 5
    ⟨[72, 105], "image/png"⟩ "make it blue"
  refine ⟨(h.1 rfl rfl).1 _ rfl, h.2 ⟨[9, 9, 9], "image/jpeg"⟩ rfl rfl rfl rfl⟩

/-- Whatever `findInlinePart` returns is a data URI, when it returns at
all. -/
theorem findInlinePart_shape (parts : List GenPart) :
    (∃ mt dat, findInlinePart parts = some ("data:" ++ mt ++ ";base64," ++ dat)) ∨
    findInlinePart parts = none := by
  induction parts with
  | nil => exact Or.inr rfl
  | cons p rest ih =>
    unfold findInlinePart
    cases hd : p.inlineData with
    | none => exact ih
    | some d =>
      dsimp only
      cases hdat : d.data with
      | none => exact ih
      | some dat =>
        dsimp only
        by_cases hne : dat != ""
        · rw [if_pos hne]
          exact Or.inl ⟨_, dat, rfl⟩
        · rw [if_neg hne]
          exact ih

/-- C8: `tryImagenGenerate` and `tryGeminiImageGenerate` are total
functions into `Option String` — every outcome is either a data-URI payload
or `none` — and a thrown provider call (the `Call.err` case, covering
transport, auth and parse failures) is absorbed into `none` rather than
propagated. -/
theorem image_strategies_absorb_errors (env : ProviderEnv) (prompt : String) :
    ((∃ b, tryImagenGenerate env prompt = some ("data:image/png;base64," ++ b)) ∨
      tryImagenGenerate env prompt = none) ∧
    (∀ m, env.imagenGen (imagenGenRequest prompt) = .err m →
      tryImagenGenerate env prompt = none) ∧
    ((∃ mt dat, tryGeminiImageGenerate env prompt =
        some ("data:" ++ mt ++ ";base64," ++ dat)) ∨
      tryGeminiImageGenerate env prompt = none) ∧
    (∀ m₁ m₂,
      env.genContent (geminiGenRequest prompt "gemini-2.0-flash-preview-image-generation") =
        .err m₁ →
      env.genContent (geminiGenRequest prompt "gemini-2.0-flash-exp") = .err m₂ →
      tryGeminiImageGenerate env prompt = none) := by
  have hshape : ∀ model, (∃ mt dat, geminiGenerateAttempt env prompt model =
      some ("data:" ++ mt ++ ";base64," ++ dat)) ∨
      geminiGenerateAttempt env prompt model = none := by
    intro model
    unfold geminiGenerateAttempt
    cases hc : env.genContent (geminiGenRequest prompt model) with
    | err m => exact Or.inr rfl
    | ok resp =>
      dsimp only
      cases hcs : resp.candidates with
      | none => exact Or.inr rfl
      | some cs =>
        cases cs with
        | nil => exact Or.inr rfl
        | cons c _ =>
          dsimp only
          cases hct : c.content with
          | none => exact Or.inr rfl
          | some ct =>
            dsimp only
            cases hp : ct.parts with
            | none => exact Or.inr rfl
            | some parts => exact findInlinePart_shape parts
  refine ⟨?_, ?_, ?_, ?_⟩
  · unfold tryImagenGenerate
    cases hai : aiPresent env with
    | false => exact Or.inr rfl
    | true =>
      cases hc : env.imagenGen (imagenGenRequest prompt) with
      | err m => exact Or.inr rfl
      | ok resp =>
        dsimp only
        cases hg : resp.generatedImages with
        | none => exact Or.inr rfl
        | some gs =>
          cases gs with
          | nil => exact Or.inr rfl
          | cons g _ =>
            dsimp only
            cases hi : g.image with
            | none => exact Or.inr rfl
            | some img =>
              dsimp only
              cases hb : img.imageBytes with
              | none => exact Or.inr rfl
              | some b =>
                dsimp only
                by_cases hne : b != ""
                · rw [if_pos hne]
                  exact Or.inl ⟨b, rfl⟩
                · rw [if_neg hne]
                  exact Or.inr rfl
  · intro m hm
    unfold tryImagenGenerate
    cases hai : aiPresent env with
    | false => rfl
    | true =>
      rw [hm]
      rfl
  · cases hai : aiPresent env with
    | false =>
      refine Or.inr ?_
      unfold tryGeminiImageGenerate
      rw [hai]
      rfl
    | true =>
      have hun : tryGeminiImageGenerate env prompt =
          match geminiGenerateAttempt env prompt "gemini-2.0-flash-preview-image-generation" with
          | some r => some r
          | none => geminiGenerateAttempt env prompt "gemini-2.0-flash-exp" := by
        unfold tryGeminiImageGenerate
        rw [hai]
        rfl
      rw [hun]
      rcases hshape "gemini-2.0-flash-preview-image-generation" with ⟨mt, dat, hx⟩ | hx
      · rw [hx]
        exact Or.inl ⟨mt, dat, rfl⟩
      · rw [hx]
        exact hshape "gemini-2.0-flash-exp"
  · intro m₁ m₂ h₁ h₂
    unfold tryGeminiImageGenerate
    cases hai : aiPresent env with
    | false => rfl
    | true =>
      have a₁ : geminiGenerateAttempt env prompt "gemini-2.0-flash-preview-image-generation" =
          none := by
        unfold geminiGenerateAttempt
        rw [h₁]
      have a₂ : geminiGenerateAttempt env prompt "gemini-2.0-flash-exp" = none := by
        unfold geminiGenerateAttempt
        rw [h₂]
      rw [a₁, a₂]
      rfl

/-- C8 witness: with both Gemini calls and the Imagen call throwing, the
helpers return `none`. -/
theorem image_strategies_absorb_errors_witness :
    tryImagenGenerate allFailEnv "toy" = none ∧
    tryGeminiImageGenerate allFailEnv "toy" = none := by
  obtain ⟨-, h₂, -, h₄⟩ := image_strategies_absorb_errors allFailEnv "toy"
  exact ⟨h₂ "transport error" rfl, h₄ "transport error" "transport error" rfl rfl⟩

/-! ### Non-emptiness of the local responder branches -/

theorem priceBranch_ne_empty (ps : List Product) (n : Nat) (bn : Bool) :
    priceBranch ps n bn ≠ "" := by
  unfold priceBranch
  dsimp only
  split
  · split
    · exact str_ne_empty_right _ (by decide)
    · exact str_ne_empty_right _ (by decide)
  · split
    · decide
    · decide

theorem categoryAnswer_ne_empty (ps : List Product) (cat : String) (bn : Bool)
    (ans : String) (h : categoryAnswer ps cat bn = some ans) : ans ≠ "" := by
  unfold categoryAnswer at h
  dsimp only at h
  split at h
  · have := Option.some.inj h
    subst this
    split
    · exact str_ne_empty_right _ (by decide)
    · exact str_ne_empty_right _ (by decide)
  · exact absurd h (by simp)

theorem bestBranch_ne_empty (ps : List Product) (bn : Bool) : bestBranch ps bn ≠ "" := by
  unfold bestBranch
  dsimp only
  split
  · exact str_ne_empty_right _ (by decide)
  · exact str_ne_empty_right _ (by decide)

theorem defaultBranch_ne_empty (ps : List Product) (bn : Bool) :
    defaultBranch ps bn ≠ "" := by
  unfold defaultBranch
  dsimp only
  split
  · exact str_ne_empty_right _ (by decide)
  · exact str_ne_empty_right _ (by decide)

theorem afterCategory_ne_empty (ps : List Product) (s : List Char) (bn : Bool) :
    afterCategory ps s bn ≠ "" := by
  unfold afterCategory
  split
  · split <;> decide
  · split
    · split <;> decide
    · split
      · split <;> decide
      · split
        · split <;> decide
        · split
          · split <;> decide
          · split
            · exact bestBranch_ne_empty ps bn
            · split
              · split <;> decide
              · exact defaultBranch_ne_empty ps bn

/-- C2: for every catalog, message and language the Local Heuristic
Responder returns a non-empty string, and the input
`"plush teddy under ₹2000"` — which matches both the price-ceiling pattern
and the Plushies keywords — is answered by the price-bound branch (with
ceiling 2000), not the category branch: the branches are evaluated in the
fixed order price-bound → category → age → greeting → thanks →
best/popular → shipping → default. -/
theorem localChatFallback_nonempty_and_priority :
    (∀ (ps : List Product) (msg : String) (lang : Lang),
      localChatFallback ps msg lang ≠ "") ∧
    (∀ (ps : List Product) (lang : Lang),
      localChatFallback ps "plush teddy under ₹2000" lang =
        priceBranch ps 2000 (lang == Lang.bn)) := by
  constructor
  · intro ps msg lang
    unfold localChatFallback
    cases hp : priceMatchNum (jsToLower msg).data with
    | some n => exact priceBranch_ne_empty ps n _
    | none =>
      dsimp only
      cases hm : matchedCategory (jsToLower msg).data with
      | some cat =>
        dsimp only
        cases hca : categoryAnswer ps cat (lang == Lang.bn) with
        | some ans =>
          dsimp only
          exact categoryAnswer_ne_empty ps cat _ ans hca
        | none =>
          dsimp only
          exact afterCategory_ne_empty ps (jsToLower msg).data (lang == Lang.bn)
      | none =>
        dsimp only
        exact afterCategory_ne_empty ps (jsToLower msg).data (lang == Lang.bn)
  · intro ps lang
    unfold localChatFallback
    rw [show priceMatchNum (jsToLower "plush teddy under ₹2000").data = some 2000 from by
      decide]

/-- C10: when the message matches no price pattern, a category wins the
keyword scoring, but every product of that category is out of stock, the
category branch produces nothing and evaluation falls through to the
branches after it (age, greeting, thanks, best/popular, shipping,
default). -/
theorem localChatFallback_category_fallthrough (ps : List Product) (msg : String)
    (lang : Lang) (cat : String)
    (h1 : priceMatchNum (jsToLower msg).data = none)
    (h2 : matchedCategory (jsToLower msg).data = some cat)
    (h3 : ps.filter (fun p => p.category == cat && decide (0 < p.stock)) = []) :
    localChatFallback ps msg lang =
      afterCategory ps (jsToLower msg).data (lang == Lang.bn) := by
  have hca : categoryAnswer ps cat (lang == Lang.bn) = none := by
    unfold categoryAnswer
    rw [h3]
    rfl
  unfold localChatFallback
  rw [h1]
  dsimp only
  rw [h2]
  dsimp only
  rw [hca]

/-- C10 witness: on the catalog whose only plush toy has stock 0, the
message `"teddy"` matches Plushies but is answered by the fall-through
branches (here, the default branch). -/
theorem localChatFallback_category_fallthrough_witness :
    priceMatchNum (jsToLower "teddy").data = none ∧
    matchedCategory (jsToLower "teddy").data = some "Plushies" ∧
    teddyOnly.filter (fun p => p.category == "Plushies" && decide (0 < p.stock)) = [] ∧
    localChatFallback teddyOnly "teddy" Lang.en =
      afterCategory teddyOnly (jsToLower "teddy").data (Lang.en == Lang.bn) := by
  refine ⟨by decide, by decide, by decide, ?_⟩
  exact localChatFallback_category_fallthrough teddyOnly "teddy" Lang.en "Plushies"
    (by decide) (by decide) (by decide)

/-- C4 (amended): a message matching the price-ceiling pattern with bound
`n` is answered by the price branch: the catalog filtered to
`price ≤ n ∧ stock > 0`, stable-sorted descending by rating, the top 3
formatted with name and price; when no product passes the filter the
branch returns a fixed consolation message — the English text names the
hard-coded `Rainbow Stacker at ₹1,199`, the Bengali text names no product
— rather than computing the cheapest in-stock item. -/
theorem localChatFallback_price_branch (ps : List Product) (msg : String) (lang : Lang)
    (n : Nat) (h : priceMatchNum (jsToLower msg).data = some n) :
    localChatFallback ps msg lang = priceBranch ps n (lang == Lang.bn) ∧
    (sortedAffordable ps n).Perm
      (ps.filter fun p => decide (p.price ≤ n) && decide (0 < p.stock)) ∧
    (sortedAffordable ps n).Sorted ratingDesc ∧
    (0 < (sortedAffordable ps n).length →
      priceBranch ps n false =
        "Great options under ₹" ++ toString n ++ ": " ++
          String.intercalate ", " (((sortedAffordable ps n).take 3).map fun p =>
            "**" ++ p.name ++ "** (₹" ++ toString p.price ++ ")") ++ "! 🎁" ∧
      priceBranch ps n true =
        "₹" ++ toString n ++ "-এর মধ্যে আমাদের সেরা পণ্য: " ++
          String.intercalate ", " (((sortedAffordable ps n).take 3).map fun p =>
            "**" ++ p.name ++ "** (₹" ++ toString p.price ++ ")") ++ "! 🎁") ∧
    (¬ 0 < (sortedAffordable ps n).length →
      priceBranch ps n false =
        "Sorry, we don't have products in that budget range. Our most affordable option is the Rainbow Stacker at ₹1,199! 🌈" ∧
      priceBranch ps n true = "দুঃখিত, এই বাজেটে কোন পণ্য নেই।") := by
  refine ⟨?_, ?_, ?_, ?_, ?_⟩
  · unfold localChatFallback
    rw [h]
  · exact List.perm_insertionSort ratingDesc _
  · exact List.sorted_insertionSort ratingDesc _
  · intro hl
    constructor
    · unfold priceBranch
      dsimp only
      rw [if_pos hl]
      rfl
    · unfold priceBranch
      dsimp only
      rw [if_pos hl]
      rfl
  · intro hl
    constructor
    · unfold priceBranch
      dsimp only
      rw [if_neg hl]
      rfl
    · unfold priceBranch
      dsimp only
      rw [if_neg hl]
      rfl

/-- C4 witness — the spec's Scenario A: catalog of Rainbow Stacker (₹1199)
and Cuddly Elephant (₹1699), input `"budget 1500"` → only Rainbow Stacker
is recommended. -/
theorem localChatFallback_price_branch_witness :
    priceMatchNum (jsToLower "budget 1500").data = some 1500 ∧
    localChatFallback specCatalog "budget 1500" Lang.en =
      "Great options under ₹1500: **Rainbow Stacker** (₹1199)! 🎁" := by
  have h := localChatFallback_price_branch specCatalog "budget 1500" Lang.en 1500 (by decide)
  refine ⟨by decide, ?_⟩
  rw [h.1]
  decide

/-- C4 counterexample: on the Scenario A catalog, the Bengali consolation
for `"budget 100"` (no product costs at most ₹100) mentions neither the
cheapest in-stock product (`Rainbow Stacker`) nor any other product — the
consolation is a fixed string, not a computed cheapest-item suggestion. -/
theorem price_consolation_counterexample :
    localChatFallback specCatalog "budget 100" Lang.bn =
      "দুঃখিত, এই বাজেটে কোন পণ্য নেই।" ∧
    hasSubstr "Rainbow Stacker".data "দুঃখিত, এই বাজেটে কোন পণ্য নেই।".data = false ∧
    hasSubstr "Cuddly Elephant".data "দুঃখিত, এই বাজেটে কোন পণ্য নেই।".data = false := by
  refine ⟨by decide, by decide, by decide⟩

/-! ### Whitespace-only messages hit the default branch -/

theorem jsSpace_toNat {c : Char} (h : isJsSpace c = true) :
    c.toNat ≤ 32 ∨ 160 ≤ c.toNat := by
  simp only [isJsSpace, Bool.or_eq_true, beq_iff_eq, decide_eq_true_eq,
    Bool.and_eq_true] at h
  rcases h with ((((((((((((((h | h) | h) | h) | h) | h) | h) | h) | h) | h) | h) | h) | h) | h) | h)
  all_goals first
    | omega
    | (subst h; decide)

theorem toLower_eq_of_isJsSpace {c : Char} (h : isJsSpace c = true) : c.toLower = c := by
  have hb := jsSpace_toNat h
  unfold Char.toLower
  dsimp only
  rw [if_neg]
  omega

theorem map_toLower_of_allWs (l : List Char) (h : l.all isJsSpace = true) :
    l.map Char.toLower = l := by
  induction l with
  | nil => rfl
  | cons c cs ih =>
    simp only [List.all_cons, Bool.and_eq_true] at h
    simp [toLower_eq_of_isJsSpace h.1, ih h.2]

theorem jsToLower_of_allWs {msg : String} (h : msg.data.all isJsSpace = true) :
    jsToLower msg = msg := by
  unfold jsToLower
  rw [map_toLower_of_allWs _ h]

theorem not_word_of_isJsSpace {c : Char} (h : isJsSpace c = true) :
    isWordChar c = false := by
  have hb := jsSpace_toNat h
  rw [Bool.eq_false_iff]
  intro hw
  simp only [isWordChar, Bool.or_eq_true, Bool.and_eq_true, decide_eq_true_eq,
    beq_iff_eq] at hw
  rcases hw with ((hw | hw) | hw) | hw
  · omega
  · omega
  · omega
  · subst hw
    revert hb
    decide

theorem wordAt_false_of_allWs {s : List Char} (h : s.all isJsSpace = true) (i : Nat) :
    wordAt s i = false := by
  unfold wordAt
  cases hg : s.get? i with
  | none => rfl
  | some c =>
    exact not_word_of_isJsSpace (List.all_eq_true.mp h c (List.get?_mem hg))

theorem wb_false_of_allWs {s : List Char} (h : s.all isJsSpace = true) (i : Nat) :
    wb s i = false := by
  unfold wb
  rw [wordAt_false_of_allWs h]
  split
  · rfl
  · rw [wordAt_false_of_allWs h]
    rfl

theorem wbMatch_false_of_allWs (alts : List Char → Nat → List (Option Nat))
    {s : List Char} (h : s.all isJsSpace = true) : wbMatch alts s = false := by
  unfold wbMatch
  rw [List.any_eq_false]
  intro i _
  rw [wb_false_of_allWs h]
  simp

theorem spanWb_none_of_allWs {s : List Char} (h : s.all isJsSpace = true)
    (i : Nat) (j? : Option Nat) : spanWb s i j? = none := by
  unfold spanWb
  cases j? with
  | none => rfl
  | some j =>
    rw [wb_false_of_allWs h]
    simp

theorem seqMatch_false_of_allWs (altsA altsB : List Char → Nat → List (Option Nat))
    {s : List Char} (h : s.all isJsSpace = true) : seqMatch altsA altsB s = false := by
  unfold seqMatch
  rw [List.any_eq_false]
  intro i _
  rw [Bool.not_eq_true, List.any_eq_false]
  intro j? hj
  rcases List.mem_map.mp hj with ⟨x, -, rfl⟩
  rw [Bool.not_eq_true, spanWb_none_of_allWs h]

theorem isPrefixOf_false_of_allWs {t : List Char} (h : t.all isJsSpace = true)
    (c : Char) (w : List Char) (hc : isJsSpace c = false) :
    (c :: w).isPrefixOf t = false := by
  cases t with
  | nil => rfl
  | cons d ds =>
    simp only [List.all_cons, Bool.and_eq_true] at h
    have : (c == d) = false := by
      rw [Bool.eq_false_iff]
      intro he
      rw [beq_iff_eq] at he
      subst he
      rw [h.1] at hc
      exact absurd hc (by decide)
    simp [List.isPrefixOf, this]

theorem hasSubstr_false_of_allWs {s : List Char} (h : s.all isJsSpace = true)
    (c : Char) (w : List Char) (hc : isJsSpace c = false) :
    hasSubstr (c :: w) s = false := by
  induction s with
  | nil => rfl
  | cons d ds ih =>
    have hall := h
    simp only [List.all_cons, Bool.and_eq_true] at hall
    unfold hasSubstr
    rw [isPrefixOf_false_of_allWs h c w hc, ih hall.2]
    rfl

theorem drop_allWs {s : List Char} (h : s.all isJsSpace = true) (i : Nat) :
    (s.drop i).all isJsSpace = true :=
  List.all_eq_true.mpr fun x hx =>
    List.all_eq_true.mp h x (List.drop_subset i s hx)

theorem priceAltAt_none_of_allWs {s : List Char} (h : s.all isJsSpace = true)
    (i : Nat) (kw : List Char)
    (hkw : ∃ c w', kw = c :: w' ∧ isJsSpace c = false) : priceAltAt s i kw = none := by
  rcases hkw with ⟨c, w', rfl, hc⟩
  unfold priceAltAt
  rw [isPrefixOf_false_of_allWs (drop_allWs h i) c w' hc]
  rfl

theorem priceMatchNum_none_of_allWs {s : List Char} (h : s.all isJsSpace = true) :
    priceMatchNum s = none := by
  unfold priceMatchNum
  rw [List.findSome?_eq_none_iff]
  intro i _
  rw [priceAltAt_none_of_allWs h i "under".data ⟨'u', "nder".data, by decide, by decide⟩,
    priceAltAt_none_of_allWs h i "below".data ⟨'b', "elow".data, by decide, by decide⟩,
    priceAltAt_none_of_allWs h i "budget".data ⟨'b', "udget".data, by decide, by decide⟩,
    priceAltAt_none_of_allWs h i "within".data ⟨'w', "ithin".data, by decide, by decide⟩]
  rfl

theorem foldl_keyword_zero (s : List Char) (entries : List (String × List String))
    (h : ∀ e ∈ entries, ∀ k ∈ e.2, hasSubstr k.data s = false)
    (a : Option String × Nat) :
    entries.foldl (fun acc ck =>
      let cnt := (ck.2.filter fun k => hasSubstr k.data s).length
      if acc.2 < cnt then (some ck.1, cnt) else acc) a = a := by
  induction entries generalizing a with
  | nil => rfl
  | cons e es ih =>
    have hcnt : (e.2.filter fun k => hasSubstr k.data s) = [] :=
      List.filter_eq_nil_iff.mpr fun k hk => by
        simp [h e (List.mem_cons_self e es) k hk]
    simp only [List.foldl_cons, hcnt]
    have hstep : (if a.2 < ([] : List String).length then ((some e.1 : Option String),
        ([] : List String).length) else a) = a := by
      simp
    rw [hstep]
    exact ih (fun e' he' => h e' (List.mem_cons_of_mem _ he')) a

theorem matchedCategory_none_of_allWs {s : List Char} (h : s.all isJsSpace = true) :
    matchedCategory s = none := by
  have hk : ∀ e ∈ categoryKeywords, ∀ k ∈ e.2, hasSubstr k.data s = false := by
    intro e he k hk
    fin_cases he <;> fin_cases hk <;>
      exact hasSubstr_false_of_allWs h _ _ (by decide)
  unfold matchedCategory
  rw [foldl_keyword_zero s categoryKeywords hk ((none : Option String), 0)]

theorem afterCategory_default_of_allWs (ps : List Product) {s : List Char}
    (h : s.all isJsSpace = true) (bn : Bool) :
    afterCategory ps s bn = defaultBranch ps bn := by
  have hgb : greetingBnRe s = false := by
    unfold greetingBnRe
    rw [hasSubstr_false_of_allWs h 'ন' _ (by decide),
      hasSubstr_false_of_allWs h 'হ' _ (by decide),
      hasSubstr_false_of_allWs h 'হ' _ (by decide)]
    rfl
  have htb : thanksBnRe s = false := by
    unfold thanksBnRe
    rw [hasSubstr_false_of_allWs h 'ধ' _ (by decide),
      hasSubstr_false_of_allWs h 'ব' _ (by decide)]
    rfl
  unfold afterCategory
  rw [show ageBabyRe s = false from wbMatch_false_of_allWs _ h,
    show agePreschoolRe s = false from seqMatch_false_of_allWs _ _ h,
    show ageYearFirstRe s = false from seqMatch_false_of_allWs _ _ h,
    show ageOlderRe s = false from wbMatch_false_of_allWs _ h,
    show greetingEnRe s = false from wbMatch_false_of_allWs _ h, hgb,
    show thanksEnRe s = false from wbMatch_false_of_allWs _ h, htb,
    show bestRe s = false from wbMatch_false_of_allWs _ h,
    show shipRe s = false from wbMatch_false_of_allWs _ h]
  rfl

/-- C5 (amended): an empty or whitespace-only chat message is not rejected
and no `ValidationError` exists — `generateGiftSuggestions` performs no
input validation. Keyless, such a message flows to the Local Heuristic
Responder and is answered by its default branch with a non-empty reply;
credentialed, it is forwarded to the remote strategy like any other
message, whose non-empty trimmed reply is returned as-is. -/
theorem generateGiftSuggestions_no_validation (env : ProviderEnv) (ps : List Product)
    (history : List ChatMessage) (lang : Lang) (msg : String)
    (hws : msg.data.all isJsSpace = true) :
    (keyless env = true →
      generateGiftSuggestions env ps msg history lang =
        defaultBranch ps (lang == Lang.bn) ∧
      defaultBranch ps (lang == Lang.bn) ≠ "") ∧
    (∀ resp t, keyless env = false →
      env.genContent
        ⟨"gemini-2.0-flash", .items (buildChatContents ps msg history lang), []⟩ = .ok resp →
      resp.text = some t → jsTrim t ≠ "" →
      generateGiftSuggestions env ps msg history lang = jsTrim t) := by
  have hdata : (jsToLower msg).data.all isJsSpace = true := by
    rw [jsToLower_of_allWs hws]
    exact hws
  constructor
  · intro hk
    have hfall : localChatFallback ps msg lang = defaultBranch ps (lang == Lang.bn) := by
      unfold localChatFallback
      rw [priceMatchNum_none_of_allWs hdata]
      dsimp only
      rw [matchedCategory_none_of_allWs hdata]
      dsimp only
      exact afterCategory_default_of_allWs ps hdata _
    refine ⟨?_, defaultBranch_ne_empty ps _⟩
    unfold generateGiftSuggestions
    rw [hk]
    simpa using hfall
  · intro resp t hk hc ht hne
    unfold generateGiftSuggestions
    simp only [hk, Bool.false_eq_true, if_false]
    rw [hc]
    dsimp only
    rw [ht]
    dsimp only
    rw [if_pos (show (jsTrim t != "") = true from bne_iff_ne.mpr hne)]

/-- C5 witness: in the keyless environment, the whitespace-only message
`" "` is answered by the default branch — a non-empty reply, no
rejection. -/
theorem generateGiftSuggestions_no_validation_witness :
    generateGiftSuggestions keylessLoadsEnv specCatalog " " [] Lang.en =
      defaultBranch specCatalog (Lang.en == Lang.bn) ∧
    defaultBranch specCatalog (Lang.en == Lang.bn) ≠ "" :=
  (generateGiftSuggestions_no_validation keylessLoadsEnv specCatalog [] Lang.en " "
    (by decide)).1 rfl

/-- C5 counterexample: the empty and the whitespace-only chat message are
both answered by the Local Heuristic Responder — a strategy runs and
returns a non-empty reply; nothing is rejected and no `ValidationError` is
raised before (or instead of) the strategies. -/
theorem empty_message_not_rejected :
    generateGiftSuggestions keylessLoadsEnv specCatalog " " [] Lang.en =
      localChatFallback specCatalog " " Lang.en ∧
    localChatFallback specCatalog " " Lang.en ≠ "" ∧
    generateGiftSuggestions keylessLoadsEnv specCatalog "" [] Lang.en =
      localChatFallback specCatalog "" Lang.en ∧
    localChatFallback specCatalog "" Lang.en ≠ "" := by
  exact ⟨rfl, by decide, rfl, by decide⟩

end SarkarBrothers
